import Mathlib

/-
Verification of the orchestration core of the meta-agent repository.

The definitions below are a shallow embedding of the configuration tools
(initialize-config, add-agent, add-tool, update-entry-point, validate-config),
of the tool-builder fallback, and of the scaffolder's result contract.

Modelling conventions:
- A JavaScript record of string values (the `dependencies` map) is an ordered
  association list `List (String × String)`; property assignment `m[k] = v`
  updates the first entry with key `k` in place or appends a new entry at the
  end, exactly as JavaScript object-key insertion order behaves (`setDep`).
- A JavaScript spread `...(x && \x7b x \x7d)` with a string `x` contributes the
  field only when `x` is truthy, i.e. a non-empty string (`truthyString`).
- Fallible external actions (JSON parsing, file-system writes) are explicit
  parameters: an `Option` for a parse result, an oracle `Nat → Except String
  Unit` giving each file-system operation's outcome in program order.
-/

inductive EntryKind where
  | agent
  | workflow
  deriving DecidableEq

structure EntryPointConfig where
  type : EntryKind
  name : String
  deriving DecidableEq

structure AgentConfig where
  name : String
  instructions : String
  model : String
  tools : List String
  description : Option String
  deriving DecidableEq

structure ToolConfig where
  name : String
  description : String
  inputSchema : String
  outputSchema : Option String
  code : String
  deriving DecidableEq

/-- A workflow step has an id and a type; its optional opaque `config` record
(`z.record(z.any())`) is carried by no operation or check modelled here and is
omitted. -/
structure WorkflowStep where
  id : String
  type : String
  deriving DecidableEq

structure WorkflowConfig where
  name : String
  description : String
  inputSchema : String
  outputSchema : String
  steps : List WorkflowStep
  deriving DecidableEq

structure FinalAgentConfig where
  projectName : String
  description : String
  dependencies : List (String × String)
  entryPoint : EntryPointConfig
  agents : List AgentConfig
  tools : List ToolConfig
  workflows : List WorkflowConfig
  deriving DecidableEq

/-- JavaScript object-property assignment `m[k] = v` on a record modelled as an
ordered association list: the first entry with key `k` is updated in place,
otherwise `(k, v)` is appended. -/
def setDep : List (String × String) → String → String → List (String × String)
  | [], k, v => [(k, v)]
  | (k', v') :: rest, k, v =>
    if k' = k then (k', v) :: rest else (k', v') :: setDep rest k v

/-- JavaScript object-property read `m[k]`: the first entry with key `k`. -/
def lookupDep : List (String × String) → String → Option String
  | [], _ => none
  | (k', v') :: rest, k => if k' = k then some v' else lookupDep rest k

/-- The JavaScript conditional spread `...(s && \x7b s \x7d)`: an empty string is
falsy, so the field is present exactly when the string is present and
non-empty. -/
def truthyString : Option String → Option String
  | some s => if s = "" then none else some s
  | none => none

/-- The default dependency map of `initialize-config`, used when the caller
supplies none. -/
def defaultDependencies : List (String × String) :=
  [("@mastra/core", "latest"), ("@ai-sdk/openai", "latest"), ("zod", "latest")]

/-- The execute body of `initializeConfigTool` (initialize-config). -/
def initializeConfigTool (projectName description : String)
    (entryPointType : EntryKind)
    (dependencies : Option (List (String × String))) : FinalAgentConfig :=
  { projectName := projectName
    description := description
    dependencies := dependencies.getD defaultDependencies
    entryPoint :=
      { type := entryPointType
        name := if entryPointType = EntryKind.agent then "mainAgent" else "mainWorkflow" }
    agents := []
    tools := []
    workflows := [] }

/-- The execute body of `addAgentTool` (add-agent).  `config.dependencies || \x7b\x7d`
and the `Array.isArray(config.workflows)` guard are identities here: the input
schema guarantees both fields are present, and a record and an array are both
truthy. -/
def addAgentTool (config : FinalAgentConfig) (name instructions model : String)
    (tools : List String) (description : Option String) : FinalAgentConfig :=
  let newAgent : AgentConfig :=
    { name := name
      instructions := instructions
      model := model
      tools := tools
      description := truthyString description }
  { config with agents := config.agents ++ [newAgent] }

/-- The execute body of `addToolTool` (add-tool): append the new tool and merge
each extra dependency name with the fixed placeholder version. -/
def addToolTool (config : FinalAgentConfig) (name description inputSchema : String)
    (outputSchema : Option String) (code : String)
    (dependencies : Option (List String)) : FinalAgentConfig :=
  let newTool : ToolConfig :=
    { name := name
      description := description
      inputSchema := inputSchema
      outputSchema := truthyString outputSchema
      code := code }
  let updatedDependencies :=
    (dependencies.getD []).foldl (fun m dep => setDep m dep "latest") config.dependencies
  { config with
    tools := config.tools ++ [newTool]
    dependencies := updatedDependencies }

/-- The execute body of `updateEntryPointTool` (update-entry-point). -/
def updateEntryPointTool (config : FinalAgentConfig) (type : EntryKind)
    (name : String) : FinalAgentConfig :=
  { config with entryPoint := { type := type, name := name } }

def entryAgentErrMsg (name : String) : String :=
  "Entry point agent '" ++ name ++ "' not found in agents list"

def entryWorkflowErrMsg (name : String) : String :=
  "Entry point workflow '" ++ name ++ "' not found in workflows list"

def toolErrMsg (toolName agentName : String) : String :=
  "Tool '" ++ toolName ++ "' used by agent '" ++ agentName ++ "' not found in tools list"

structure ValidationResult where
  isValid : Bool
  errors : List String
  config : FinalAgentConfig
  deriving DecidableEq

/-- The execute body of `validateConfigTool` (validate-config): the entry-point
check pushes at most one error, then the nested loops push one error per
dangling tool reference; `isValid` is `errors.length === 0`. -/
def validateConfigTool (config : FinalAgentConfig) : ValidationResult :=
  let errors : List String := []
  let errors :=
    match config.entryPoint.type with
    | EntryKind.agent =>
      if (config.agents.find? (fun a => a.name == config.entryPoint.name)).isSome then errors
      else errors ++ [entryAgentErrMsg config.entryPoint.name]
    | EntryKind.workflow =>
      if (config.workflows.find? (fun w => w.name == config.entryPoint.name)).isSome then errors
      else errors ++ [entryWorkflowErrMsg config.entryPoint.name]
  let errors :=
    config.agents.foldl
      (fun errs agent =>
        agent.tools.foldl
          (fun errs2 toolName =>
            if (config.tools.find? (fun t => t.name == toolName)).isSome then errs2
            else errs2 ++ [toolErrMsg toolName agent.name])
          errs)
      errors
  { isValid := errors.length == 0, errors := errors, config := config }

/-- Declarative form of the entry-point check of `validateConfigTool`. -/
def entryPointErrors (c : FinalAgentConfig) : List String :=
  match c.entryPoint.type with
  | EntryKind.agent =>
    if (c.agents.find? (fun a => a.name == c.entryPoint.name)).isSome then []
    else [entryAgentErrMsg c.entryPoint.name]
  | EntryKind.workflow =>
    if (c.workflows.find? (fun w => w.name == c.entryPoint.name)).isSome then []
    else [entryWorkflowErrMsg c.entryPoint.name]

/-- Declarative form of the dangling-tool-reference loop of
`validateConfigTool`: one error per occurrence of an unresolvable tool name, in
agent order then tool-list order. -/
def danglingToolErrors (c : FinalAgentConfig) : List String :=
  c.agents.flatMap (fun agent =>
    (agent.tools.filter
      (fun toolName => (c.tools.find? (fun t => t.name == toolName)).isNone)).map
      (fun toolName => toolErrMsg toolName agent.name))

/-- Whether an error message of `validateConfigTool` is an entry-point error:
both entry-point messages start with this prefix and no dangling-tool message
does. -/
def isEntryPointErrorMsg (e : String) : Bool :=
  List.isPrefixOf "Entry point".data e.data

/-- The entry-point name is absent from the list its kind designates. -/
def entryPointNameAbsent (c : FinalAgentConfig) : Bool :=
  match c.entryPoint.type with
  | EntryKind.agent => !(c.agents.any (fun a => a.name == c.entryPoint.name))
  | EntryKind.workflow => !(c.workflows.any (fun w => w.name == c.entryPoint.name))

/-- Input specification given to the tool-builder (`toolSpec` of
`toolBuilderAgentTool`). -/
structure ToolBuildSpec where
  name : String
  purpose : String
  inputType : String
  outputType : String
  deriving DecidableEq

/-- Output record of the tool-builder (its declared output schema). -/
structure ToolBuilderOutput where
  name : String
  description : String
  inputSchema : String
  outputSchema : Option String
  code : String
  dependencies : Option (List String)
  deriving DecidableEq

/-- The deterministic fallback configuration `toolBuilderAgentTool` returns
when `JSON.parse` of the generator's text throws. -/
def toolBuilderFallback (spec : ToolBuildSpec) : ToolBuilderOutput :=
  { name := spec.name
    description := spec.purpose
    inputSchema := "z.object(\x7b input: z.string().describe('" ++ spec.inputType ++ "') \x7d)"
    outputSchema := some ("z.object(\x7b output: z.string().describe('" ++ spec.outputType ++ "') \x7d)")
    code := "console.log('Executing " ++ spec.name ++ ":', context);\nreturn \x7b output: 'example " ++ spec.outputType ++ "' \x7d;"
    dependencies := some [] }

/-- The execute body of `toolBuilderAgentTool` after the generator call: the
parse outcome of the generated text is `some` parsed record or `none` when
parsing throws, in which case the fallback is returned. -/
def toolBuilderAgentTool (spec : ToolBuildSpec)
    (parsed : Option ToolBuilderOutput) : ToolBuilderOutput :=
  match parsed with
  | some t => t
  | none => toolBuilderFallback spec

structure ScaffoldResult where
  success : Bool
  projectPath : String
  message : String
  logs : List String
  deriving DecidableEq

/-- `path.join` of two segments, kept abstract as separator concatenation. -/
def joinPath (a b : String) : String := a ++ "/" ++ b

/-- The ten file-system operations of `scaffoldProjectTool` in program order
(three `ensureDir` calls then seven `writeFile` calls), each paired with the
log line pushed after it succeeds (`none` for the directory operations, which
log nothing). -/
def scaffoldOpLogs (c : FinalAgentConfig) : List (Option String) :=
  [none, none, none,
   some "✓ Generated package.json",
   some "✓ Generated tsconfig.json",
   some "✓ Generated .env file",
   some "✓ Generated tools/index.ts",
   some "✓ Generated agents/index.ts",
   some (if c.workflows.isEmpty then "✓ Generated empty workflows/index.ts"
         else "✓ Generated workflows/index.ts"),
   some "✓ Generated main index.ts"]

/-- Run the operations in order against the oracle `fs`: on the first thrown
error the remaining operations never run (the `try` block aborts to `catch`);
otherwise the logs accumulate. Returns the logs gathered so far and the thrown
error, if any. -/
def runScaffoldOps (fs : Nat → Except String Unit) :
    Nat → List String → List (Option String) → List String × Option String
  | _, logs, [] => (logs, none)
  | i, logs, l :: rest =>
    match fs i with
    | Except.ok _ => runScaffoldOps fs (i + 1) (logs ++ l.toList) rest
    | Except.error e => (logs, some e)

/-- The first error among the first `n` operations of the oracle, starting at
index `i`. -/
def firstErrFrom (fs : Nat → Except String Unit) : Nat → Nat → Option String
  | _, 0 => none
  | i, n + 1 =>
    match fs i with
    | Except.ok _ => firstErrFrom fs (i + 1) n
    | Except.error e => some e

/-- The first error the scaffolder's ten file-system operations throw, if
any. -/
def firstScaffoldError (fs : Nat → Except String Unit) : Option String :=
  firstErrFrom fs 0 10

/-- The execute body of `scaffoldProjectTool` (scaffold-project): the whole
body sits in one try/catch, so a thrown file-system error is converted into a
returned record with `success := false`, the error in `message`, and a final
log line describing it; file contents are not modelled, only each write's
outcome via the oracle `fs`. -/
def scaffoldProjectTool (config : FinalAgentConfig) (outputPath : Option String)
    (cwd : String) (fs : Nat → Except String Unit) : ScaffoldResult :=
  let outPath := outputPath.getD "./generated-agents/"
  let projectDir := joinPath (joinPath cwd outPath) config.projectName
  let logs0 := ["Creating project at: " ++ projectDir]
  match runScaffoldOps fs 0 logs0 (scaffoldOpLogs config) with
  | (logs, none) =>
    { success := true
      projectPath := projectDir
      message := "Project '" ++ config.projectName ++ "' scaffolded successfully!"
      logs := logs }
  | (logs, some e) =>
    { success := false
      projectPath := outPath
      message := "Scaffolding failed: " ++ e
      logs := logs ++ ["Scaffolding failed with error: " ++ e] }

/-- The dependencies object `scaffoldProjectTool` writes into the generated
package.json: the configuration's dependencies spread first, then the literal
keys tsx, zod and @mastra/core assigned "latest" (overwriting a spread value
when the key already exists). -/
def packageJsonDependencies (c : FinalAgentConfig) : List (String × String) :=
  setDep (setDep (setDep c.dependencies "tsx" "latest") "zod" "latest") "@mastra/core" "latest"

/-
Concrete configurations used by witnesses and counterexamples, built with the
stage operations themselves where possible.
-/

/-- Scenario A: the configuration produced by `initialize-config` for the
weather-agent request. -/
def scenarioAConfig : FinalAgentConfig :=
  initializeConfigTool "weather-agent" "desc" EntryKind.agent none

/-- Scenario B first step: add the webSearch tool. -/
def webSearchConfig : FinalAgentConfig :=
  addToolTool scenarioAConfig "webSearch" "Search the web" "z.string()" none "return data;" none

/-- Scenario C: the researcher agent references webSearch and the never-added
readURL. -/
def scenarioCAgentConfig : FinalAgentConfig :=
  addAgentTool webSearchConfig "researcher" "Research topics on the web"
    "openai('gpt-4o')" ["webSearch", "readURL"] none

/-- Scenario C after `update-entry-point` points at the researcher agent. -/
def scenarioCConfig : FinalAgentConfig :=
  updateEntryPointTool scenarioCAgentConfig EntryKind.agent "researcher"

/-- The stored form of the webSearch tool inside `scenarioCConfig.tools`. -/
def webSearchStored : ToolConfig :=
  { name := "webSearch"
    description := "Search the web"
    inputSchema := "z.string()"
    outputSchema := none
    code := "return data;" }

/-- A configuration whose dependency map pins node-fetch to a concrete
version. -/
def pinnedConfig : FinalAgentConfig :=
  initializeConfigTool "proj" "desc" EntryKind.agent (some [("node-fetch", "1.0.0")])

/-- A configuration holding two distinct tool entries that share the name x,
while its entry point resolves and every referenced tool exists. -/
def dupToolsConfig : FinalAgentConfig :=
  { projectName := "proj"
    description := "desc"
    dependencies := []
    entryPoint := { type := EntryKind.agent, name := "a" }
    agents := [{ name := "a", instructions := "i", model := "m", tools := ["x"], description := none }]
    tools := [{ name := "x", description := "first", inputSchema := "s1", outputSchema := none, code := "c1" },
              { name := "x", description := "second", inputSchema := "s2", outputSchema := none, code := "c2" }]
    workflows := [] }

/-
Shared helper lemmas.
-/

theorem lookupDep_setDep (m : List (String × String)) (k v k2 : String) :
    lookupDep (setDep m k v) k2 = if k2 = k then some v else lookupDep m k2 := by
  induction m with
  | nil =>
    simp only [setDep, lookupDep]
    by_cases h : k = k2
    · subst h; simp
    · rw [if_neg h, if_neg (fun h2 => h h2.symm)]
  | cons hd tl ih =>
    obtain ⟨k', v'⟩ := hd
    simp only [setDep]
    by_cases hk : k' = k
    · subst hk
      simp only [if_pos rfl, lookupDep]
      by_cases h2 : k' = k2
      · subst h2; simp
      · rw [if_neg h2, if_neg h2, if_neg (fun h3 => h2 h3.symm)]
    · simp only [if_neg hk, lookupDep, ih]
      by_cases h2 : k' = k2
      · subst h2
        rw [if_pos rfl, if_neg hk, if_pos rfl]
      · rw [if_neg h2, if_neg h2]

theorem lookupDep_foldl_setDep (ds : List String) (m : List (String × String)) (k : String) :
    lookupDep (ds.foldl (fun acc dep => setDep acc dep "latest") m) k =
      if k ∈ ds then some "latest" else lookupDep m k := by
  induction ds generalizing m with
  | nil => simp
  | cons d ds ih =>
    simp only [List.foldl_cons, ih, lookupDep_setDep, List.mem_cons]
    by_cases hds : k ∈ ds
    · simp [hds]
    · by_cases hd : k = d <;> simp [hds, hd]

theorem toolLoop_inner_foldl (tls : List ToolConfig) (agentName : String)
    (ts : List String) (acc : List String) :
    ts.foldl
      (fun errs2 toolName =>
        if (tls.find? (fun t => t.name == toolName)).isSome then errs2
        else errs2 ++ [toolErrMsg toolName agentName])
      acc =
    acc ++
      (ts.filter
        (fun toolName => (tls.find? (fun t => t.name == toolName)).isNone)).map
        (fun toolName => toolErrMsg toolName agentName) := by
  induction ts generalizing acc with
  | nil => simp
  | cons t ts ih =>
    simp only [List.foldl_cons, List.filter_cons]
    cases hf : (tls.find? (fun tl => tl.name == t)).isSome
    · simp only [hf, Bool.false_eq_true, if_false, ih, Option.isNone]
      cases hf2 : tls.find? (fun tl => tl.name == t)
      · simp [List.append_assoc]
      · rw [hf2] at hf; simp at hf
    · simp only [hf, if_true, ih, Option.isNone]
      cases hf2 : tls.find? (fun tl => tl.name == t)
      · rw [hf2] at hf; simp at hf
      · simp

theorem foldl_append_flatMap {α β : Type} (f : α → List β) (l : List α) (acc : List β) :
    l.foldl (fun acc2 x => acc2 ++ f x) acc = acc ++ l.flatMap f := by
  induction l generalizing acc with
  | nil => simp
  | cons x l ih => simp [ih, List.append_assoc]

theorem toolLoop_outer_foldl (tls : List ToolConfig) (ags : List AgentConfig)
    (acc : List String) :
    ags.foldl
      (fun errs agent =>
        agent.tools.foldl
          (fun errs2 toolName =>
            if (tls.find? (fun t => t.name == toolName)).isSome then errs2
            else errs2 ++ [toolErrMsg toolName agent.name])
          errs)
      acc =
    acc ++
      ags.flatMap (fun agent =>
        (agent.tools.filter
          (fun toolName => (tls.find? (fun t => t.name == toolName)).isNone)).map
          (fun toolName => toolErrMsg toolName agent.name)) := by
  simp only [toolLoop_inner_foldl]
  exact foldl_append_flatMap _ ags acc

theorem validateConfigTool_errors (c : FinalAgentConfig) :
    (validateConfigTool c).errors = entryPointErrors c ++ danglingToolErrors c := by
  obtain ⟨pn, d, deps, ⟨ty, epn⟩, ags, tls, wfs⟩ := c
  simp only [validateConfigTool, entryPointErrors, danglingToolErrors]
  cases ty <;> dsimp only <;> split <;>
    simp only [toolLoop_outer_foldl, List.nil_append, List.singleton_append]

theorem validateConfigTool_isValid (c : FinalAgentConfig) :
    (validateConfigTool c).isValid = ((validateConfigTool c).errors.length == 0) := rfl

theorem validateConfigTool_config (c : FinalAgentConfig) :
    (validateConfigTool c).config = c := rfl

theorem isEntryPointErrorMsg_toolErrMsg (t a : String) :
    isEntryPointErrorMsg (toolErrMsg t a) = false := by
  simp only [isEntryPointErrorMsg, toolErrMsg, String.data_append]
  rfl

theorem isEntryPointErrorMsg_entryAgent (n : String) :
    isEntryPointErrorMsg (entryAgentErrMsg n) = true := by
  simp only [isEntryPointErrorMsg, entryAgentErrMsg, String.data_append]
  rfl

theorem isEntryPointErrorMsg_entryWorkflow (n : String) :
    isEntryPointErrorMsg (entryWorkflowErrMsg n) = true := by
  simp only [isEntryPointErrorMsg, entryWorkflowErrMsg, String.data_append]
  rfl

theorem countP_danglingToolErrors (c : FinalAgentConfig) :
    (danglingToolErrors c).countP isEntryPointErrorMsg = 0 := by
  rw [List.countP_eq_zero]
  intro e he
  simp only [danglingToolErrors, List.mem_flatMap, List.mem_map, List.mem_filter] at he
  obtain ⟨agent, _, toolName, _, rfl⟩ := he
  simp [isEntryPointErrorMsg_toolErrMsg]

theorem countP_entryPointErrors (c : FinalAgentConfig) :
    (entryPointErrors c).countP isEntryPointErrorMsg =
      if entryPointNameAbsent c then 1 else 0 := by
  obtain ⟨pn, d, deps, ⟨ty, epn⟩, ags, tls, wfs⟩ := c
  simp only [entryPointErrors, entryPointNameAbsent]
  cases ty <;> dsimp only
  · by_cases h : ∃ x ∈ ags, (x.name == epn) = true
    · have h1 : (ags.find? (fun a => a.name == epn)).isSome = true := by
        rw [List.find?_isSome]; exact h
      have h2 : (ags.any (fun a => a.name == epn)) = true := by
        rw [List.any_eq_true]; exact h
      simp [h1, h2]
    · have h1 : ¬ (ags.find? (fun a => a.name == epn)).isSome = true := by
        rw [List.find?_isSome]; exact h
      have h2 : ¬ (ags.any (fun a => a.name == epn)) = true := by
        rw [List.any_eq_true]; exact h
      simp [h1, h2, isEntryPointErrorMsg_entryAgent]
  · by_cases h : ∃ x ∈ wfs, (x.name == epn) = true
    · have h1 : (wfs.find? (fun w => w.name == epn)).isSome = true := by
        rw [List.find?_isSome]; exact h
      have h2 : (wfs.any (fun w => w.name == epn)) = true := by
        rw [List.any_eq_true]; exact h
      simp [h1, h2]
    · have h1 : ¬ (wfs.find? (fun w => w.name == epn)).isSome = true := by
        rw [List.find?_isSome]; exact h
      have h2 : ¬ (wfs.any (fun w => w.name == epn)) = true := by
        rw [List.any_eq_true]; exact h
      simp [h1, h2, isEntryPointErrorMsg_entryWorkflow]

theorem find?_name_append_dup (tls : List ToolConfig) (t : ToolConfig)
    (h : t ∈ tls) (tn : String) :
    ((tls ++ [t]).find? (fun x => x.name == tn)).isNone =
      (tls.find? (fun x => x.name == tn)).isNone := by
  rw [List.find?_append]
  cases hf : tls.find? (fun x => x.name == tn) with
  | some y => simp
  | none =>
    have hnp : ¬ (t.name == tn) = true := List.find?_eq_none.mp hf t h
    simp [List.find?, hnp]

theorem runScaffoldOps_snd (fs : Nat → Except String Unit) (ops : List (Option String)) :
    ∀ (i : Nat) (logs : List String),
      (runScaffoldOps fs i logs ops).2 = firstErrFrom fs i ops.length := by
  induction ops with
  | nil => intro i logs; rfl
  | cons l rest ih =>
    intro i logs
    simp only [runScaffoldOps, List.length_cons, firstErrFrom]
    cases fs i with
    | ok u => exact ih (i + 1) _
    | error e => rfl

/-
Claim theorems.
-/

/-- C1 (amended): add-tool appends exactly one tool built from its inputs: the
tools list grows by one and the prior elements are unchanged in order.  The
appended element is the input ToolSpec except that an empty-string
outputSchema is dropped (JavaScript truthiness), and it equals the input
ToolSpec whenever outputSchema is not the empty string. -/
theorem addTool_appends_stored (c : FinalAgentConfig)
    (nm desc inS : String) (outS : Option String) (cd : String)
    (deps : Option (List String)) :
    (addToolTool c nm desc inS outS cd deps).tools =
      c.tools ++ [{ name := nm, description := desc, inputSchema := inS,
                    outputSchema := truthyString outS, code := cd }] ∧
    (addToolTool c nm desc inS outS cd deps).tools.length = c.tools.length + 1 ∧
    (addToolTool c nm desc inS outS cd deps).tools.take c.tools.length = c.tools ∧
    (outS ≠ some "" → truthyString outS = outS) := by
  refine ⟨rfl, by simp [addToolTool], by simp [addToolTool], ?_⟩
  intro h
  cases outS with
  | none => rfl
  | some s =>
    have hs : s ≠ "" := fun hs => h (by rw [hs])
    simp [truthyString, hs]

/-- C1 counterexample: with an empty-string outputSchema the appended tool is
not the input ToolSpec, so add-tool(c, t).tools differs from c.tools ++ [t]. -/
theorem addTool_appends_input_counterexample :
    (addToolTool scenarioAConfig "t1" "d1" "s1" (some "") "c1" none).tools ≠
      scenarioAConfig.tools ++
        [{ name := "t1", description := "d1", inputSchema := "s1",
           outputSchema := some "", code := "c1" }] := by decide

/-- C2 (amended): after add-tool, every supplied extra dependency name maps to
the placeholder "latest" — overwriting any existing version — and every other
key keeps its previous value. -/
theorem addTool_dependencies_lookup (c : FinalAgentConfig)
    (nm desc inS : String) (outS : Option String) (cd : String)
    (deps : Option (List String)) (k : String) :
    lookupDep (addToolTool c nm desc inS outS cd deps).dependencies k =
      if k ∈ deps.getD [] then some "latest" else lookupDep c.dependencies k := by
  show lookupDep ((deps.getD []).foldl (fun m dep => setDep m dep "latest") c.dependencies) k = _
  exact lookupDep_foldl_setDep _ _ _

/-- C2 counterexample: re-adding the dependency node-fetch, pinned at version
1.0.0 in the configuration, overwrites its version with "latest", so re-adding
an existing dependency name is not a no-op. -/
theorem addTool_dependency_overwrite_counterexample :
    lookupDep pinnedConfig.dependencies "node-fetch" = some "1.0.0" ∧
    lookupDep (addToolTool pinnedConfig "fetcher" "d" "s" none "c"
        (some ["node-fetch"])).dependencies "node-fetch" = some "latest" := by decide

/-- C6: initialize-config returns a configuration with the given project name
and description, empty agents, tools and workflows, the fixed base dependency
set of three packages all at "latest" when the caller supplies none, and the
provisional entry-point name mainAgent or mainWorkflow according to the kind;
Scenario A is the weather-agent instance. -/
theorem initializeConfig_spec (pn d : String) (k : EntryKind)
    (deps : Option (List (String × String))) :
    (initializeConfigTool pn d k deps).projectName = pn ∧
    (initializeConfigTool pn d k deps).description = d ∧
    (initializeConfigTool pn d k deps).agents = [] ∧
    (initializeConfigTool pn d k deps).tools = [] ∧
    (initializeConfigTool pn d k deps).workflows = [] ∧
    (initializeConfigTool pn d k deps).entryPoint.type = k ∧
    (initializeConfigTool pn d k deps).entryPoint.name =
      (if k = EntryKind.agent then "mainAgent" else "mainWorkflow") ∧
    (initializeConfigTool pn d k none).dependencies = defaultDependencies ∧
    defaultDependencies.length = 3 ∧
    defaultDependencies.all (fun kv => kv.2 == "latest") = true ∧
    initializeConfigTool "weather-agent" "desc" EntryKind.agent none =
      { projectName := "weather-agent", description := "desc",
        dependencies := defaultDependencies,
        entryPoint := { type := EntryKind.agent, name := "mainAgent" },
        agents := [], tools := [], workflows := [] } :=
  ⟨rfl, rfl, rfl, rfl, rfl, rfl, rfl, rfl, rfl, rfl, rfl⟩

/-- C7: add-tool and add-agent preserve projectName and description, and
update-entry-point replaces entryPoint wholesale with the given kind and name
(no existence check) while leaving every other field of the configuration
unchanged. -/
theorem stage_ops_frame (c : FinalAgentConfig)
    (an ai am : String) (ats : List String) (ad : Option String)
    (tn tdesc tis : String) (tos : Option String) (tcd : String)
    (tdeps : Option (List String)) (k : EntryKind) (en : String) :
    (addToolTool c tn tdesc tis tos tcd tdeps).projectName = c.projectName ∧
    (addToolTool c tn tdesc tis tos tcd tdeps).description = c.description ∧
    (addAgentTool c an ai am ats ad).projectName = c.projectName ∧
    (addAgentTool c an ai am ats ad).description = c.description ∧
    (updateEntryPointTool c k en).projectName = c.projectName ∧
    (updateEntryPointTool c k en).description = c.description ∧
    (updateEntryPointTool c k en).agents = c.agents ∧
    (updateEntryPointTool c k en).tools = c.tools ∧
    (updateEntryPointTool c k en).workflows = c.workflows ∧
    (updateEntryPointTool c k en).dependencies = c.dependencies ∧
    (updateEntryPointTool c k en).entryPoint = { type := k, name := en } :=
  ⟨rfl, rfl, rfl, rfl, rfl, rfl, rfl, rfl, rfl, rfl, rfl⟩

/-- C8: when the generated text fails to parse, the tool-builder returns the
deterministic placeholder synthesized from the input specification — name from
the spec, description from its purpose, stub input and output schemas, stub
code that logs the input and returns an example object, empty dependency list
— and feeding that placeholder to add-tool still grows the tools list by one,
so the build loop always makes progress. -/
theorem toolBuilder_fallback_spec (spec : ToolBuildSpec) (c : FinalAgentConfig) :
    toolBuilderAgentTool spec none = toolBuilderFallback spec ∧
    (toolBuilderFallback spec).name = spec.name ∧
    (toolBuilderFallback spec).description = spec.purpose ∧
    (toolBuilderFallback spec).inputSchema =
      "z.object(\x7b input: z.string().describe('" ++ spec.inputType ++ "') \x7d)" ∧
    (toolBuilderFallback spec).outputSchema =
      some ("z.object(\x7b output: z.string().describe('" ++ spec.outputType ++ "') \x7d)") ∧
    (toolBuilderFallback spec).code =
      "console.log('Executing " ++ spec.name ++ ":', context);\nreturn \x7b output: 'example " ++
        spec.outputType ++ "' \x7d;" ∧
    (toolBuilderFallback spec).dependencies = some [] ∧
    (addToolTool c (toolBuilderFallback spec).name (toolBuilderFallback spec).description
        (toolBuilderFallback spec).inputSchema (toolBuilderFallback spec).outputSchema
        (toolBuilderFallback spec).code (toolBuilderFallback spec).dependencies).tools.length =
      c.tools.length + 1 := by
  refine ⟨rfl, rfl, rfl, rfl, rfl, rfl, rfl, ?_⟩
  simp [addToolTool]

/-- C10: the dependencies object written into the generated package.json maps
tsx, zod and @mastra/core to "latest" whatever the configuration assigned
them, and maps every other key exactly as the configuration's dependencies
do. -/
theorem packageJson_dependencies_lookup (c : FinalAgentConfig) (k : String) :
    lookupDep (packageJsonDependencies c) k =
      if k = "tsx" ∨ k = "zod" ∨ k = "@mastra/core" then some "latest"
      else lookupDep c.dependencies k := by
  simp only [packageJsonDependencies, lookupDep_setDep]
  by_cases h1 : k = "@mastra/core" <;> by_cases h2 : k = "zod" <;>
    by_cases h3 : k = "tsx" <;> simp [h1, h2, h3]

/-- C3 counterexample: a configuration whose two distinct tool entries share
the name x (they differ in every other field) passes validation with an empty
error list, so validate does not check name uniqueness. -/
theorem validate_duplicate_names_counterexample :
    dupToolsConfig.tools.map ToolConfig.name = ["x", "x"] ∧
    dupToolsConfig.tools.map ToolConfig.description = ["first", "second"] ∧
    (validateConfigTool dupToolsConfig).errors = [] ∧
    (validateConfigTool dupToolsConfig).isValid = true := by decide

/-- C3 (amended): validate performs no name-uniqueness check: duplicate names
produce no error; in particular appending a duplicate of a tool already in the
configuration leaves both the error list and the validity verdict of validate
unchanged. -/
theorem validate_ignores_duplicate_tool (c : FinalAgentConfig) (t : ToolConfig)
    (h : t ∈ c.tools) :
    (validateConfigTool { c with tools := c.tools ++ [t] }).errors =
      (validateConfigTool c).errors ∧
    (validateConfigTool { c with tools := c.tools ++ [t] }).isValid =
      (validateConfigTool c).isValid := by
  have hfind : ∀ tn : String,
      ((c.tools ++ [t]).find? (fun x => x.name == tn)).isNone =
        (c.tools.find? (fun x => x.name == tn)).isNone :=
    fun tn => find?_name_append_dup c.tools t h tn
  have herr : (validateConfigTool { c with tools := c.tools ++ [t] }).errors =
      (validateConfigTool c).errors := by
    rw [validateConfigTool_errors, validateConfigTool_errors]
    have hep : entryPointErrors { c with tools := c.tools ++ [t] } =
        entryPointErrors c := rfl
    have hdt : danglingToolErrors { c with tools := c.tools ++ [t] } =
        danglingToolErrors c := by
      simp only [danglingToolErrors]
      simp only [hfind]
    rw [hep, hdt]
  exact ⟨herr, by rw [validateConfigTool_isValid, validateConfigTool_isValid, herr]⟩

/-- C3 witness: duplicating the stored webSearch tool inside the Scenario C
configuration leaves validate's output unchanged. -/
theorem validate_ignores_duplicate_tool_witness :
    (validateConfigTool
        { scenarioCConfig with tools := scenarioCConfig.tools ++ [webSearchStored] }).errors =
      (validateConfigTool scenarioCConfig).errors ∧
    (validateConfigTool
        { scenarioCConfig with tools := scenarioCConfig.tools ++ [webSearchStored] }).isValid =
      (validateConfigTool scenarioCConfig).isValid :=
  validate_ignores_duplicate_tool scenarioCConfig webSearchStored (by decide)

/-- C4: validate's error list contains exactly one entry-point error when the
entry-point name is absent from the list its kind designates, and none
otherwise. -/
theorem validate_entry_point_error_count (c : FinalAgentConfig) :
    (validateConfigTool c).errors.countP isEntryPointErrorMsg =
      if entryPointNameAbsent c then 1 else 0 := by
  rw [validateConfigTool_errors, List.countP_append, countP_entryPointErrors,
    countP_danglingToolErrors, Nat.add_zero]

/-- C5 (amended): validate's error list is the entry-point errors followed by
one error per dangling tool-reference occurrence, agent by agent and reference
by reference, none dropped; in Scenario C the single error reads Tool
'readURL' used by agent 'researcher' not found in tools list (capital Tool,
unlike the claim's quoted lowercase string). -/
theorem validate_dangling_tool_errors (c : FinalAgentConfig) :
    (validateConfigTool c).errors = entryPointErrors c ++ danglingToolErrors c ∧
    (validateConfigTool scenarioCConfig).errors =
      ["Tool 'readURL' used by agent 'researcher' not found in tools list"] ∧
    (validateConfigTool scenarioCConfig).isValid = false :=
  ⟨validateConfigTool_errors c, by decide, by decide⟩

/-- C5 counterexample: Scenario C's error list is not the claimed
lowercase-tool string list: the code capitalizes Tool. -/
theorem validate_scenarioC_message_counterexample :
    (validateConfigTool scenarioCConfig).errors ≠
      ["tool 'readURL' used by agent 'researcher' not found in tools list"] := by decide

/-- C9: the scaffolder always returns a result record: when no file-system
operation throws it reports success with the success message and the project
directory, and when one throws it reports the failure in the returned record —
success false, the error inside message, the final log line describing it —
instead of raising. -/
theorem scaffoldProject_reports_failure (config : FinalAgentConfig)
    (outputPath : Option String) (cwd : String) (fs : Nat → Except String Unit) :
    (firstScaffoldError fs = none →
      (scaffoldProjectTool config outputPath cwd fs).success = true ∧
      (scaffoldProjectTool config outputPath cwd fs).message =
        "Project '" ++ config.projectName ++ "' scaffolded successfully!" ∧
      (scaffoldProjectTool config outputPath cwd fs).projectPath =
        joinPath (joinPath cwd (outputPath.getD "./generated-agents/")) config.projectName) ∧
    (∀ e : String, firstScaffoldError fs = some e →
      (scaffoldProjectTool config outputPath cwd fs).success = false ∧
      (scaffoldProjectTool config outputPath cwd fs).message = "Scaffolding failed: " ++ e ∧
      (scaffoldProjectTool config outputPath cwd fs).projectPath =
        outputPath.getD "./generated-agents/" ∧
      (scaffoldProjectTool config outputPath cwd fs).logs.getLast? =
        some ("Scaffolding failed with error: " ++ e)) := by
  have hsnd : (runScaffoldOps fs 0
      ["Creating project at: " ++
        joinPath (joinPath cwd (outputPath.getD "./generated-agents/")) config.projectName]
      (scaffoldOpLogs config)).2 = firstScaffoldError fs :=
    runScaffoldOps_snd fs (scaffoldOpLogs config) 0 _
  rcases hrun : runScaffoldOps fs 0
      ["Creating project at: " ++
        joinPath (joinPath cwd (outputPath.getD "./generated-agents/")) config.projectName]
      (scaffoldOpLogs config) with ⟨logs, err⟩
  rw [hrun] at hsnd
  constructor
  · intro h
    rw [h] at hsnd
    have herr : err = none := hsnd
    subst herr
    simp only [scaffoldProjectTool]
    rw [hrun]
    exact ⟨rfl, rfl, rfl⟩
  · intro e h
    rw [h] at hsnd
    have herr : err = some e := hsnd
    subst herr
    simp only [scaffoldProjectTool]
    rw [hrun]
    exact ⟨rfl, rfl, rfl, List.getLast?_concat _⟩

/-- C9 witness: with an all-ok oracle the scaffolder reports success, and with
an oracle whose first operation throws "disk full" it returns a record
reporting the failure. -/
theorem scaffoldProject_reports_failure_witness :
    (scaffoldProjectTool scenarioAConfig none "/cwd" (fun _ => Except.ok ())).success = true ∧
    (scaffoldProjectTool scenarioAConfig none "/cwd"
      (fun _ => Except.error "disk full")).success = false ∧
    (scaffoldProjectTool scenarioAConfig none "/cwd"
      (fun _ => Except.error "disk full")).message = "Scaffolding failed: disk full" :=
  ⟨((scaffoldProject_reports_failure scenarioAConfig none "/cwd"
      (fun _ => Except.ok ())).1 rfl).1,
   ((scaffoldProject_reports_failure scenarioAConfig none "/cwd"
      (fun _ => Except.error "disk full")).2 "disk full" rfl).1,
   ((scaffoldProject_reports_failure scenarioAConfig none "/cwd"
      (fun _ => Except.error "disk full")).2 "disk full" rfl).2.1⟩
